/-
  Verification of the bigbite backend against its specification.

  Shallow embedding of the request handlers in src/routes (restaurant.js,
  rating.js, rider.js, wishlist.js) and the mongoose schemas (User, MenuItem,
  Wishlist).  Databases are modelled as in-memory lists of documents; ObjectIds
  are natural numbers; JavaScript numbers are rationals except for the
  coordinate arithmetic of the Haversine distance filter, which uses real
  numbers.  Each handler is a pure function from the request data and the
  database to a response value and the resulting database.
-/
import Mathlib

/-! ## Order-status state machine (modelled from the spec)

The repository wires `routes/order.js` and `models/Order.js` in its server
entry file, but those files are not part of the sources available here; the
state machine below is therefore modelled from the specification, section 4.1.
-/

/-- The order statuses of the fixed lifecycle sequence, plus the two terminal
statuses `delivered` and `cancelled`.  The status strings appearing in the
available sources (restaurant.js and rider.js active-order queries) agree with
this enumeration. -/
inductive OrderStatus
  | pending
  | accepted
  | rider_assigned
  | preparing
  | ready
  | picked_up
  | on_the_way
  | delivered
  | cancelled
deriving DecidableEq, Repr, Fintype

/-- Actor roles, as in the User schema role enumeration. -/
inductive Role
  | customer
  | rider
  | restaurant
  | admin
deriving DecidableEq, Repr, Fintype

/-- Modelled from the spec: the immediate successor along the fixed sequence
pending, accepted, rider_assigned, preparing, ready, picked_up, on_the_way,
delivered. -/
def nextStatus : OrderStatus → Option OrderStatus
  | .pending => some .accepted
  | .accepted => some .rider_assigned
  | .rider_assigned => some .preparing
  | .preparing => some .ready
  | .ready => some .picked_up
  | .picked_up => some .on_the_way
  | .on_the_way => some .delivered
  | .delivered => none
  | .cancelled => none

/-- A status is terminal when it is `delivered` or `cancelled`. -/
def isTerminal (s : OrderStatus) : Bool :=
  s == .delivered || s == .cancelled

/-- Modelled from the spec: the role-restricted transition table of section
4.1.  The restaurant advances pending to accepted, rider_assigned to
preparing and preparing to ready; the rider-assignment step moves accepted to
rider_assigned; the rider advances ready to picked_up, picked_up to
on_the_way and on_the_way to delivered; any of restaurant, customer or admin
may move a non-terminal order to cancelled. -/
def allowedTransition (actor : Role) (s t : OrderStatus) : Bool :=
  (match actor, s, t with
    | .restaurant, .pending, .accepted => true
    | .restaurant, .rider_assigned, .preparing => true
    | .restaurant, .preparing, .ready => true
    | .rider, .accepted, .rider_assigned => true
    | .rider, .ready, .picked_up => true
    | .rider, .picked_up, .on_the_way => true
    | .rider, .on_the_way, .delivered => true
    | _, _, _ => false)
  || (t == .cancelled && !isTerminal s
      && (actor == .restaurant || actor == .customer || actor == .admin))

/-- The error produced by a rejected status transition. -/
inductive TransitionErr
  | invalidTransition
deriving DecidableEq, Repr

/-- Modelled from the spec: a requested transition succeeds exactly when the
role-restricted table permits it, and otherwise fails with
InvalidTransitionError. -/
def transition (s : OrderStatus) (actor : Role) (t : OrderStatus) :
    Except TransitionErr OrderStatus :=
  if allowedTransition actor s t then .ok t else .error .invalidTransition

/-- Modelled from the spec: the stateful view of a transition request; on
failure the status is left unchanged and the error reported. -/
def stepOrder (s : OrderStatus) (actor : Role) (t : OrderStatus) :
    OrderStatus × Option TransitionErr :=
  match transition s actor t with
  | .ok s2 => (s2, none)
  | .error e => (s, some e)

/-! ## Document model (User, Order, MenuItem, Wishlist schemas)

ObjectIds are natural numbers, timestamps natural numbers, JavaScript numbers
rationals, except geographic coordinates which are real numbers because the
restaurant listing runs trigonometric arithmetic on them.  Fields that a
mongoose document may lack are `Option`s; fields the schema fills with a
default on creation are plain. -/

/-- A rating aggregate `{average, count}` as in the User schema
(`restaurantDetails.rating`, `riderDetails.rating`).  The schema defaults the
aggregate on document creation, so it is always present. -/
structure RatingAgg where
  average : ℚ
  count : ℕ
deriving DecidableEq, Repr

/-- The `restaurantDetails.address` subdocument; only the coordinates are read
by the modelled handlers.  Both are optional Numbers in the schema. -/
structure RestaurantAddress where
  latitude : Option ℝ
  longitude : Option ℝ

/-- The `restaurantDetails` subdocument of the User schema, restricted to the
fields the modelled handlers read or write (kitchenName, address,
isKitchenOpen, rating); the cosmetic fields (cuisine, description,
businessLicense, isVerified) are not modelled. -/
structure RestaurantDetails where
  kitchenName : Option String
  address : Option RestaurantAddress
  isKitchenOpen : Option Bool
  rating : RatingAgg

/-- An empty `restaurantDetails` object, as assigned by
`user.restaurantDetails = {}` in the toggle-kitchen handler; the rating
aggregate takes the schema defaults. -/
def emptyRestaurantDetails : RestaurantDetails :=
  { kitchenName := none, address := none, isKitchenOpen := none
    rating := { average := 0, count := 0 } }

/-- The `riderDetails.currentLocation` subdocument. -/
structure RiderLoc where
  latitude : Option ℝ
  longitude : Option ℝ
  lastUpdated : Option ℕ

/-- The `riderDetails` subdocument of the User schema, restricted to the
fields the modelled handlers read or write. -/
structure RiderDetails where
  isAvailable : Option Bool
  currentLocation : Option RiderLoc
  rating : RatingAgg

/-- An empty `riderDetails` object, as assigned by `rider.riderDetails = {}`
in the rider patch handlers; the rating aggregate takes the schema defaults
(average 2.5, count 0). -/
def emptyRiderDetails : RiderDetails :=
  { isAvailable := none, currentLocation := none
    rating := { average := 5/2, count := 0 } }

/-- A User document (schema in models/User.js), restricted to the fields the
modelled handlers read or write. -/
structure UserDoc where
  id : ℕ
  name : String
  email : String
  password : Option String
  role : String
  avatar : Option String
  restaurantDetails : Option RestaurantDetails
  riderDetails : Option RiderDetails
  passwordResetToken : Option String
  passwordResetExpires : Option ℕ

/-- A rating subdocument `{value, review, ratedAt}` stored on an order. -/
structure RatingSub where
  value : ℚ
  review : String
  ratedAt : ℕ
deriving DecidableEq, Repr

/-- An Order document, restricted to the fields read or written by the
handlers available in the sources (restaurant reference, rider reference,
status string, rating subdocuments). -/
structure OrderDoc where
  id : ℕ
  restaurant : ℕ
  rider : Option ℕ
  status : String
  restaurantRating : Option RatingSub
  riderRating : Option RatingSub
deriving DecidableEq, Repr

/-- A MenuItem document (schema in models/MenuItem.js).  The owning restaurant
reference field is named `restaurantId`; the schema has no field named
`restaurant`. -/
structure MenuItemDoc where
  id : ℕ
  restaurantId : ℕ
  name : String
  description : String
  price : ℚ
  category : String
  cuisine : String
  subCategory : Option String
  image : String
  isVeg : Bool
  isAvailable : Bool
  restaurantLocation : Option RestaurantAddress

/-- A wishlist line item `{menuItem, name, price, quantity}`. -/
structure WishItem where
  menuItem : ℕ
  name : Option String
  price : Option ℚ
  quantity : ℕ
deriving DecidableEq, Repr

/-- A Wishlist document (schema in models/Wishlist.js). -/
structure WishlistDoc where
  id : ℕ
  user : ℕ
  name : String
  restaurant : ℕ
  items : List WishItem
deriving DecidableEq, Repr

/-- The document store: one collection per model. -/
structure DB where
  users : List UserDoc
  orders : List OrderDoc
  menuItems : List MenuItemDoc
  wishlists : List WishlistDoc

/-- `Model.findById`. -/
def findUser (users : List UserDoc) (id : ℕ) : Option UserDoc :=
  users.find? (fun u => u.id == id)

/-- `Order.findById`. -/
def findOrderDoc (orders : List OrderDoc) (id : ℕ) : Option OrderDoc :=
  orders.find? (fun o => o.id == id)

/-- `MenuItem.findById`. -/
def findMenuItemDoc (items : List MenuItemDoc) (id : ℕ) : Option MenuItemDoc :=
  items.find? (fun m => m.id == id)

/-- `document.save()` on a user: persist the document under its id. -/
def saveUser (users : List UserDoc) (u : UserDoc) : List UserDoc :=
  users.map (fun v => if v.id == u.id then u else v)

/-- `document.save()` on an order. -/
def saveOrder (orders : List OrderDoc) (o : OrderDoc) : List OrderDoc :=
  orders.map (fun v => if v.id == o.id then o else v)

/-- `document.save()` on a menu item. -/
def saveMenuItem (items : List MenuItemDoc) (m : MenuItemDoc) : List MenuItemDoc :=
  items.map (fun v => if v.id == m.id then m else v)

/-- `document.save()` on a wishlist. -/
def saveWishlist (ws : List WishlistDoc) (w : WishlistDoc) : List WishlistDoc :=
  ws.map (fun v => if v.id == w.id then w else v)

/-! ## Toggle kitchen (restaurant.js, PUT /toggle-kitchen) -/

/-- The status list of the active-order count query in the toggle-kitchen
handler: every non-terminal, pre-delivery status. -/
def activeStatusList : List String :=
  ["pending", "accepted", "rider_assigned", "preparing", "ready",
   "picked_up", "on_the_way"]

/-- `Order.countDocuments({restaurant: user._id, status: {$in: ...}})`. -/
def countActiveOrders (orders : List OrderDoc) (restaurantId : ℕ) : ℕ :=
  (orders.filter
    (fun o => o.restaurant == restaurantId && activeStatusList.contains o.status)).length

/-- The response of the toggle-kitchen handler: 403 when the caller is not a
restaurant, 404 when the user document is missing, 400 with the active-order
count (the ConflictError of the specification) when closing is blocked, 200
with the new flag on success. -/
inductive ToggleKitchenRes
  | forbidden
  | notFoundUser
  | conflict (activeOrders : ℕ)
  | ok (isKitchenOpen : Bool)
deriving DecidableEq, Repr

/-- Write the flipped kitchen flag into the user document, creating the
`restaurantDetails` object when missing, as lines 248-255 of restaurant.js
do. -/
def setKitchenOpen (user : UserDoc) (b : Bool) : UserDoc :=
  let details := user.restaurantDetails.getD emptyRestaurantDetails
  { user with restaurantDetails := some { details with isKitchenOpen := some b } }

/-- The PUT /toggle-kitchen handler (restaurant.js lines 209-272). -/
def toggleKitchen (db : DB) (caller : UserDoc) : ToggleKitchenRes × DB :=
  if caller.role != "restaurant" then (.forbidden, db)
  else
    match findUser db.users caller.id with
    | none => (.notFoundUser, db)
    | some user =>
      let currentStatus := (user.restaurantDetails.bind (fun d => d.isKitchenOpen)).getD true
      if currentStatus then
        let activeOrders := countActiveOrders db.orders user.id
        if activeOrders > 0 then (.conflict activeOrders, db)
        else
          let user2 := setKitchenOpen user (!currentStatus)
          (.ok (!currentStatus), { db with users := saveUser db.users user2 })
      else
        let user2 := setKitchenOpen user (!currentStatus)
        (.ok (!currentStatus), { db with users := saveUser db.users user2 })

/-! ## Rating submission (rating.js, POST /order/:orderId) -/

/-- Truthiness of an optional JavaScript number: absent, 0 and NaN are falsy
(`if (restaurantRating)`). -/
def numTruthy (v : Option ℚ) : Bool :=
  match v with
  | none => false
  | some x => x != 0

/-- JavaScript `x || d` on a number `x`: yields `d` when `x` is 0. -/
def jsOrQ (x d : ℚ) : ℚ := if x == 0 then d else x

/-- JavaScript `x || d` on a nonnegative integer `x`. -/
def jsOrN (x d : ℕ) : ℕ := if x == 0 then d else x

/-- `Math.round(x * 10) / 10`: JavaScript `Math.round` rounds half toward
positive infinity. -/
def jsRound10 (x : ℚ) : ℚ := (⌊x * 10 + 1/2⌋ : ℚ) / 10

/-- Rounding half-up to one decimal place, as the specification words it. -/
def roundHalfUp1 (x : ℚ) : ℚ := (⌊x * 10 + 1/2⌋ : ℚ) / 10

/-- The rating-aggregate recurrence exactly as the specification states it:
newAvg = round((oldAvg*oldCount + newRating)/(oldCount+1), 1 decimal),
newCount = oldCount+1. -/
def specRatingUpdate (old : RatingAgg) (r : ℚ) : RatingAgg :=
  { average := roundHalfUp1 ((old.average * old.count + r) / (old.count + 1))
    count := old.count + 1 }

/-- The request body of POST /api/rating/order/:orderId. -/
structure RatingBody where
  restaurantRating : Option ℚ
  restaurantReview : Option String
  riderRating : Option ℚ
  riderReview : Option String

/-- The response of the rating handler: 404 when the order is missing, 400
when the order is not delivered, 500 when the handler throws (caught at line
86 of rating.js), 200 on success. -/
inductive RateOrderRes
  | notFoundOrder
  | badRequest
  | serverError
  | ok
deriving DecidableEq, Repr

/-- The restaurant branch of the rating handler (rating.js lines 30-52).
Returns the updated order document and database, or the database reached when
the branch throws (reading `.rating` of a missing `restaurantDetails`). -/
def rateRestaurantBranch (db : DB) (order : OrderDoc) (body : RatingBody)
    (now : ℕ) : Except DB (OrderDoc × DB) :=
  if numTruthy body.restaurantRating then
    let r := body.restaurantRating.getD 0
    let sub : RatingSub :=
      { value := r, review := body.restaurantReview.getD "", ratedAt := now }
    let order1 := { order with restaurantRating := some sub }
    match findUser db.users order.restaurant with
    | none => .ok (order1, db)
    | some restaurant =>
      match restaurant.restaurantDetails with
      | none => .error db
      | some details =>
        let currentAvg := jsOrQ details.rating.average 0
        let currentCount := jsOrN details.rating.count 0
        let newCount := currentCount + 1
        let newAvg := (currentAvg * (currentCount : ℚ) + r) / (newCount : ℚ)
        let details2 :=
          { details with rating := { average := jsRound10 newAvg, count := newCount } }
        let restaurant2 := { restaurant with restaurantDetails := some details2 }
        .ok (order1, { db with users := saveUser db.users restaurant2 })
  else .ok (order, db)

/-- The rider branch of the rating handler (rating.js lines 55-77). -/
def rateRiderBranch (db : DB) (order : OrderDoc) (body : RatingBody)
    (now : ℕ) : Except DB (OrderDoc × DB) :=
  if numTruthy body.riderRating && order.rider.isSome then
    let r := body.riderRating.getD 0
    let sub : RatingSub :=
      { value := r, review := body.riderReview.getD "", ratedAt := now }
    let order1 := { order with riderRating := some sub }
    match findUser db.users (order.rider.getD 0) with
    | none => .ok (order1, db)
    | some rider =>
      match rider.riderDetails with
      | none => .error db
      | some details =>
        let currentAvg := jsOrQ details.rating.average (5/2)
        let currentCount := jsOrN details.rating.count 0
        let newCount := currentCount + 1
        let newAvg := (currentAvg * (currentCount : ℚ) + r) / (newCount : ℚ)
        let details2 :=
          { details with rating := { average := jsRound10 newAvg, count := newCount } }
        let rider2 := { rider with riderDetails := some details2 }
        .ok (order1, { db with users := saveUser db.users rider2 })
  else .ok (order, db)

/-- The POST /api/rating/order/:orderId handler (rating.js lines 8-94).  The
two branches run in sequence; a branch that throws leaves the writes of the
earlier branch in place and skips the final `order.save()`. -/
def rateOrder (db : DB) (orderId : ℕ) (body : RatingBody) (now : ℕ) :
    RateOrderRes × DB :=
  match findOrderDoc db.orders orderId with
  | none => (.notFoundOrder, db)
  | some order =>
    if order.status != "delivered" then (.badRequest, db)
    else
      match rateRestaurantBranch db order body now with
      | .error db1 => (.serverError, db1)
      | .ok (order1, db1) =>
        match rateRiderBranch db1 order1 body now with
        | .error db2 => (.serverError, db2)
        | .ok (order2, db2) =>
          (.ok, { db2 with orders := saveOrder db2.orders order2 })

/-! ## Public restaurant listing (restaurant.js, GET /all) -/

/-- Two-argument arctangent, the semantics of `Math.atan2(y, x)`. -/
noncomputable def atan2 (y x : ℝ) : ℝ :=
  if 0 < x then Real.arctan (y / x)
  else if x < 0 then
    (if 0 ≤ y then Real.arctan (y / x) + Real.pi
     else Real.arctan (y / x) - Real.pi)
  else
    (if 0 < y then Real.pi / 2
     else if y < 0 then -(Real.pi / 2)
     else 0)

/-- The Haversine helper `calculateDistance` of restaurant.js lines 282-292,
with Earth radius 6371 km; returns the distance in km. -/
noncomputable def calculateDistance (lat1 lon1 lat2 lon2 : ℝ) : ℝ :=
  let R : ℝ := 6371
  let dLat := (lat2 - lat1) * Real.pi / 180
  let dLon := (lon2 - lon1) * Real.pi / 180
  let a := Real.sin (dLat / 2) * Real.sin (dLat / 2) +
    Real.cos (lat1 * Real.pi / 180) * Real.cos (lat2 * Real.pi / 180) *
    Real.sin (dLon / 2) * Real.sin (dLon / 2)
  let c := 2 * atan2 (Real.sqrt a) (Real.sqrt (1 - a))
  R * c

/-- JavaScript `x || d` on an optional string (the empty string is falsy). -/
def jsOrS (x : Option String) (d : String) : String :=
  match x with
  | none => d
  | some s => if s == "" then d else s

/-- One element of the GET /all response array (restaurant.js lines 305-319).
The cosmetic cuisine and description copies are not modelled; the
`address || {}` fallback is modelled by `none` (an empty object has no
coordinate properties, exactly as a missing address). -/
structure RestaurantEntry where
  id : ℕ
  name : String
  avatar : Option String
  address : Option RestaurantAddress
  isKitchenOpen : Bool
  kitchenName : String
  rating : RatingAgg
  menuItems : List MenuItemDoc
  menuCount : ℕ

/-- Build the response entry for one restaurant user: its available menu
items are `MenuItem.find({restaurantId: restaurant._id, isAvailable: true})`
(restaurant.js lines 300-303). -/
def buildRestaurantEntry (menu : List MenuItemDoc) (u : UserDoc) : RestaurantEntry :=
  let items := menu.filter (fun m => m.restaurantId == u.id && m.isAvailable)
  { id := u.id
    name := jsOrS (u.restaurantDetails.bind (fun d => d.kitchenName)) u.name
    avatar := u.avatar
    address := u.restaurantDetails.bind (fun d => d.address)
    isKitchenOpen := (u.restaurantDetails.bind (fun d => d.isKitchenOpen)).getD true
    kitchenName := jsOrS (u.restaurantDetails.bind (fun d => d.kitchenName)) u.name
    rating := (u.restaurantDetails.map (fun d => d.rating)).getD { average := 0, count := 0 }
    menuItems := items
    menuCount := items.length }

/-- `User.find({role: 'restaurant'})`, entry building, and the
`menuCount > 0` filter of restaurant.js line 324. -/
def restaurantsWithMenu (users : List UserDoc) (menu : List MenuItemDoc) :
    List RestaurantEntry :=
  ((users.filter (fun u => u.role == "restaurant")).map
    (buildRestaurantEntry menu)).filter (fun r => r.menuCount > 0)

/-- Falsiness of an optional JavaScript number: `!v` holds when the property
is absent or its value is 0. -/
def numFalsy (v : Option ℝ) : Prop := v = none ∨ v = some 0

open Classical in
/-- The body of the distance filter loop (restaurant.js lines 339-358): a
restaurant is kept when both stored coordinates are truthy and the Haversine
distance to the query point is at most maxDist. -/
noncomputable def keepByDistance (userLat userLon maxDist : ℝ)
    (r : RestaurantEntry) : Bool :=
  let restLat := r.address.bind (fun a => a.latitude)
  let restLon := r.address.bind (fun a => a.longitude)
  if numFalsy restLat ∨ numFalsy restLon then false
  else decide
    (calculateDistance userLat userLon (restLat.getD 0) (restLon.getD 0) ≤ maxDist)

/-- The distance filter of restaurant.js lines 338-360. -/
noncomputable def filterByDistance (userLat userLon maxDist : ℝ)
    (rs : List RestaurantEntry) : List RestaurantEntry :=
  rs.filter (keepByDistance userLat userLon maxDist)

/-- The full GET /api/restaurant/all handler (restaurant.js lines 277-368):
the menu-count filter always applies, the distance filter only when both
latitude and longitude query parameters are supplied (query parameters are
strings, so any supplied numeric value is truthy).  The maxDistance query
parameter defaults to 25 when absent; callers here pass it explicitly. -/
noncomputable def getAllRestaurants (users : List UserDoc)
    (menu : List MenuItemDoc) (latitude longitude : Option ℝ)
    (maxDistance : ℝ) : List RestaurantEntry :=
  let base := restaurantsWithMenu users menu
  match latitude, longitude with
  | some lat, some lon => filterByDistance lat lon maxDistance base
  | _, _ => base

/-! ## Add item to wishlist (wishlist.js, POST /:id/items) -/

/-- Reading the `restaurant` property of a MenuItem document: the MenuItem
schema declares the owning-restaurant field under the name `restaurantId` and
has no path named `restaurant`, so the property access of wishlist.js line
162 yields undefined on every document. -/
def menuItemRestaurantProp (_m : MenuItemDoc) : Option ℕ := none

/-- The request body of POST /api/wishlist/:id/items. -/
structure AddWishItemBody where
  menuItem : ℕ
  name : Option String
  price : Option ℚ
  quantity : Option ℕ

/-- JavaScript `quantity || 1`. -/
def jsQty (q : Option ℕ) : ℕ :=
  match q with
  | none => 1
  | some 0 => 1
  | some n => n

/-- The response of the add-item handler: 404 when the wishlist is missing,
400 for the same-restaurant validation failure, 500 when the handler throws
(caught at wishlist.js line 189), 200 on success. -/
inductive AddWishItemRes
  | notFoundWishlist
  | badRequest
  | serverError
  | ok
deriving DecidableEq, Repr

/-- `Wishlist.findOne({_id: id, user: userId})`. -/
def findWishlistForUser (ws : List WishlistDoc) (id userId : ℕ) :
    Option WishlistDoc :=
  ws.find? (fun w => w.id == id && w.user == userId)

/-- The POST /api/wishlist/:id/items handler (wishlist.js lines 145-197).
When the referenced menu item exists, the guard evaluates
`menuItemDoc.restaurant.toString()`; since the document has no `restaurant`
property this throws a TypeError, which the catch block reports as a 500. -/
def addWishlistItem (db : DB) (userId wishlistId : ℕ) (body : AddWishItemBody) :
    AddWishItemRes × DB :=
  match findWishlistForUser db.wishlists wishlistId userId with
  | none => (.notFoundWishlist, db)
  | some w =>
    match findMenuItemDoc db.menuItems body.menuItem with
    | none => (.badRequest, db)
    | some doc =>
      match menuItemRestaurantProp doc with
      | none => (.serverError, db)
      | some rid =>
        if rid != w.restaurant then (.badRequest, db)
        else
          let items2 :=
            if (w.items.find? (fun it => it.menuItem == body.menuItem)).isSome then
              w.items.map (fun it =>
                if it.menuItem == body.menuItem then
                  { it with quantity := it.quantity + jsQty body.quantity }
                else it)
            else
              w.items ++ [{ menuItem := body.menuItem, name := body.name
                            price := body.price, quantity := jsQty body.quantity }]
          let w2 := { w with items := items2 }
          (.ok, { db with wishlists := saveWishlist db.wishlists w2 })

/-! ## Menu item update and delete (restaurant.js, PUT and DELETE /menu/:id) -/

/-- The request body of PUT /api/restaurant/menu/:id; every field is
optional and only supplied fields are written. -/
structure MenuItemBody where
  name : Option String
  description : Option String
  price : Option ℚ
  category : Option String
  cuisine : Option String
  subCategory : Option String
  image : Option String
  isVeg : Option Bool
  isAvailable : Option Bool

/-- Field-by-field application of the update body (restaurant.js lines
133-141): each `if (field !== undefined) menuItem.field = field`. -/
def applyMenuItemBody (m : MenuItemDoc) (b : MenuItemBody) : MenuItemDoc :=
  let m := match b.name with | none => m | some v => { m with name := v }
  let m := match b.description with | none => m | some v => { m with description := v }
  let m := match b.price with | none => m | some v => { m with price := v }
  let m := match b.category with | none => m | some v => { m with category := v }
  let m := match b.cuisine with | none => m | some v => { m with cuisine := v }
  let m := match b.subCategory with | none => m | some v => { m with subCategory := some v }
  let m := match b.image with | none => m | some v => { m with image := v }
  let m := match b.isVeg with | none => m | some v => { m with isVeg := v }
  match b.isAvailable with | none => m | some v => { m with isAvailable := v }

/-- The response of the menu-item mutation handlers: 403 when the caller is
not a restaurant account, 404 when the item is missing, 403 when the item
belongs to another restaurant, 200 on success. -/
inductive MenuMutRes
  | forbiddenRole
  | notFoundItem
  | forbiddenOwner
  | ok
deriving DecidableEq, Repr

/-- The PUT /api/restaurant/menu/:id handler (restaurant.js lines 103-158). -/
def updateMenuItem (db : DB) (caller : UserDoc) (itemId : ℕ) (b : MenuItemBody) :
    MenuMutRes × DB :=
  if caller.role != "restaurant" then (.forbiddenRole, db)
  else
    match findMenuItemDoc db.menuItems itemId with
    | none => (.notFoundItem, db)
    | some m =>
      if m.restaurantId != caller.id then (.forbiddenOwner, db)
      else
        (.ok, { db with menuItems := saveMenuItem db.menuItems (applyMenuItemBody m b) })

/-- The DELETE /api/restaurant/menu/:id handler (restaurant.js lines
163-204); `findByIdAndDelete` removes the document with the given id. -/
def deleteMenuItem (db : DB) (caller : UserDoc) (itemId : ℕ) : MenuMutRes × DB :=
  if caller.role != "restaurant" then (.forbiddenRole, db)
  else
    match findMenuItemDoc db.menuItems itemId with
    | none => (.notFoundItem, db)
    | some m =>
      if m.restaurantId != caller.id then (.forbiddenOwner, db)
      else (.ok, { db with menuItems := db.menuItems.filter (fun v => v.id != itemId) })

/-! ## Rider self-service patches (rider.js, PATCH /availability and /location) -/

/-- The response of PATCH /api/rider/availability: 404 when the body's
riderId does not name an existing user with role rider, 200 with the new flag
otherwise. -/
inductive PatchAvailabilityRes
  | notFoundRider
  | ok (isAvailable : Bool)
deriving DecidableEq, Repr

/-- The PATCH /api/rider/availability handler (rider.js lines 95-130).  It
reads the target rider id from the request body and performs no check on who
is calling. -/
def patchAvailability (db : DB) (riderId : ℕ) (isAvailable : Bool) :
    PatchAvailabilityRes × DB :=
  match findUser db.users riderId with
  | none => (.notFoundRider, db)
  | some rider =>
    if rider.role != "rider" then (.notFoundRider, db)
    else
      let details := rider.riderDetails.getD emptyRiderDetails
      let details2 := { details with isAvailable := some isAvailable }
      let rider2 := { rider with riderDetails := some details2 }
      (.ok isAvailable, { db with users := saveUser db.users rider2 })

/-- The response of PATCH /api/rider/location. -/
inductive PatchLocRes
  | notFoundRider
  | ok (latitude longitude : ℝ)

/-- The PATCH /api/rider/location handler (rider.js lines 133-176).  It reads
the target rider id from the request body and performs no check on who is
calling. -/
def patchRiderLoc (db : DB) (riderId : ℕ) (latitude longitude : ℝ) (now : ℕ) :
    PatchLocRes × DB :=
  match findUser db.users riderId with
  | none => (.notFoundRider, db)
  | some rider =>
    if rider.role != "rider" then (.notFoundRider, db)
    else
      let details := rider.riderDetails.getD emptyRiderDetails
      let loc0 := details.currentLocation.getD
        { latitude := none, longitude := none, lastUpdated := none }
      let loc2 := { loc0 with latitude := some latitude, longitude := some longitude
                              lastUpdated := some now }
      let details2 := { details with currentLocation := some loc2 }
      let rider2 := { rider with riderDetails := some details2 }
      (.ok latitude longitude, { db with users := saveUser db.users rider2 })

/-- The PATCH /api/rider/availability route as registered at rider.js line
95: unlike the wishlist and menu routes, no authentication middleware is
mounted, so the handler runs for every request and the (possibly absent)
authenticated caller is ignored.  rider.js defines no GET /availability
route. -/
def availabilityRoute (db : DB) (_caller : Option UserDoc) (riderId : ℕ)
    (isAvailable : Bool) : PatchAvailabilityRes × DB :=
  patchAvailability db riderId isAvailable

/-- The PATCH /api/rider/location route as registered at rider.js line 133:
no authentication middleware is mounted, so the handler runs for every
request and the (possibly absent) authenticated caller is ignored. -/
def locationRoute (db : DB) (_caller : Option UserDoc) (riderId : ℕ)
    (latitude longitude : ℝ) (now : ℕ) : PatchLocRes × DB :=
  patchRiderLoc db riderId latitude longitude now

/-! ## Public user serialization (models/User.js, userSchema.methods.toJSON) -/

/-- The plain object produced by `toJSON` (models/User.js lines 234-240):
`this.toObject()` copies every modelled schema field, then the `password`,
`passwordResetToken` and `passwordResetExpires` keys are deleted, so the
serialized object carries no such keys. -/
structure UserJSON where
  id : ℕ
  name : String
  email : String
  role : String
  avatar : Option String
  restaurantDetails : Option RestaurantDetails
  riderDetails : Option RiderDetails

/-- `userSchema.methods.toJSON`. -/
def userToJSON (u : UserDoc) : UserJSON :=
  { id := u.id, name := u.name, email := u.email, role := u.role
    avatar := u.avatar, restaurantDetails := u.restaurantDetails
    riderDetails := u.riderDetails }

/-! ## Concrete sample documents for instantiating the theorems -/

/-- A sample user document with the given id, role and detail subdocuments. -/
def mkUser (id : ℕ) (role : String) (rd : Option RestaurantDetails)
    (rr : Option RiderDetails) : UserDoc :=
  { id := id, name := "u", email := "u@example.com", password := none
    role := role, avatar := none, restaurantDetails := rd, riderDetails := rr
    passwordResetToken := none, passwordResetExpires := none }

/-- A sample order document with the given id, restaurant, rider and status. -/
def mkOrder (id restaurant : ℕ) (rider : Option ℕ) (status : String) : OrderDoc :=
  { id := id, restaurant := restaurant, rider := rider, status := status
    restaurantRating := none, riderRating := none }

/-- A sample available menu item owned by the given restaurant. -/
def mkMenuItem (id restaurantId : ℕ) : MenuItemDoc :=
  { id := id, restaurantId := restaurantId, name := "dish", description := "d"
    price := 10, category := "Starter", cuisine := "Indian", subCategory := none
    image := "img", isVeg := true, isAvailable := true, restaurantLocation := none }

/-- Restaurant details that mark the kitchen open and carry the given rating
aggregate. -/
def openKitchen (agg : RatingAgg) : RestaurantDetails :=
  { kitchenName := none, address := none, isKitchenOpen := some true, rating := agg }

/-- A sample restaurant user with an open kitchen and a zero rating
aggregate. -/
def sampleKitchenUser : UserDoc :=
  mkUser 1 "restaurant" (some (openKitchen { average := 0, count := 0 })) none

/-- A sample database holding that restaurant and two of its orders in
preparing. -/
def sampleKitchenDb : DB :=
  { users := [sampleKitchenUser]
    orders := [mkOrder 10 1 none "preparing", mkOrder 11 1 none "preparing"]
    menuItems := [], wishlists := [] }

/-- Replace the restaurant-rating aggregate stored on a user document. -/
def withRating (u : UserDoc) (d : RestaurantDetails) (agg : RatingAgg) : UserDoc :=
  { u with restaurantDetails := some { d with rating := agg } }

/-- Replace the rider-rating aggregate stored on a user document. -/
def withRiderRating (u : UserDoc) (d : RiderDetails) (agg : RatingAgg) : UserDoc :=
  { u with riderDetails := some { d with rating := agg } }

/-- Set the restaurantRating subdocument of an order. -/
def withRestaurantRatingSub (o : OrderDoc) (s : RatingSub) : OrderDoc :=
  { o with restaurantRating := some s }

/-- Set the riderRating subdocument of an order. -/
def withRiderRatingSub (o : OrderDoc) (s : RatingSub) : OrderDoc :=
  { o with riderRating := some s }

/-- Rider details carrying only the given rating aggregate. -/
def riderDetailsOf (agg : RatingAgg) : RiderDetails :=
  { isAvailable := none, currentLocation := none, rating := agg }

/-- A sample restaurant whose stored aggregate is average 4.0, count 3. -/
def sampleRatedRestaurant : UserDoc :=
  mkUser 3 "restaurant" (some (openKitchen { average := 4, count := 3 })) none

/-- A sample rider whose stored aggregate is the schema default. -/
def sampleRatedRider : UserDoc :=
  mkUser 4 "rider" none (some (riderDetailsOf { average := 5/2, count := 0 }))

/-- A sample delivered order of that restaurant carried by that rider. -/
def sampleDeliveredOrder : OrderDoc := mkOrder 7 3 (some 4) "delivered"

/-- A sample database for the rating flow. -/
def sampleRatingDb : DB :=
  { users := [sampleRatedRestaurant, sampleRatedRider]
    orders := [sampleDeliveredOrder], menuItems := [], wishlists := [] }

/-- A sample rating submission: 5 for the restaurant, 4 for the rider. -/
def sampleRatingBody : RatingBody :=
  { restaurantRating := some 5, restaurantReview := none
    riderRating := some 4, riderReview := none }

/-- A sample wishlist of user 9 scoped to restaurant 1, initially empty. -/
def sampleWishlist : WishlistDoc :=
  { id := 20, user := 9, name := "faves", restaurant := 1, items := [] }

/-- A sample database for the wishlist flow: the wishlist and a menu item
owned by the same restaurant the wishlist is scoped to. -/
def sampleWishDb : DB :=
  { users := [], orders := [], menuItems := [mkMenuItem 5 1]
    wishlists := [sampleWishlist] }

/-- A sample rider user without rider details. -/
def sampleRiderUser : UserDoc := mkUser 2 "rider" none none

/-- A sample database holding only that rider. -/
def sampleRiderDb : DB :=
  { users := [sampleRiderUser], orders := [], menuItems := [], wishlists := [] }

/-- A sample restaurant user without details, for the listing flow. -/
def sampleListedRestaurant : UserDoc := mkUser 1 "restaurant" none none

/-- A restaurant address stored at latitude 0, longitude 0. -/
def zeroCoordAddress : RestaurantAddress :=
  { latitude := some 0, longitude := some 0 }

/-- Restaurant details with the zero-coordinate address and an open
kitchen. -/
def zeroCoordDetails : RestaurantDetails :=
  { kitchenName := none, address := some zeroCoordAddress
    isKitchenOpen := some true, rating := { average := 0, count := 0 } }

/-- A restaurant user whose stored coordinates are (0, 0). -/
def zeroCoordRestaurant : UserDoc :=
  mkUser 1 "restaurant" (some zeroCoordDetails) none

/-! ## Theorems -/

/-- C1: the order status advances only along the fixed sequence pending,
accepted, rider_assigned, preparing, ready, picked_up, on_the_way, delivered,
with cancelled reachable from any non-terminal state; a requested transition
succeeds exactly when the target is the step permitted for the acting role,
and otherwise (in particular from the terminal statuses delivered and
cancelled) fails with InvalidTransitionError leaving the status unchanged. -/
theorem order_status_state_machine :
    ∀ (s : OrderStatus) (actor : Role) (t : OrderStatus),
      (allowedTransition actor s t = true → stepOrder s actor t = (t, none)) ∧
      (allowedTransition actor s t = false →
        stepOrder s actor t = (s, some TransitionErr.invalidTransition)) ∧
      (allowedTransition actor s t = true →
        t = OrderStatus.cancelled ∨ nextStatus s = some t) ∧
      (isTerminal s = true →
        stepOrder s actor t = (s, some TransitionErr.invalidTransition)) ∧
      (isTerminal s = false →
        stepOrder s Role.customer OrderStatus.cancelled =
          (OrderStatus.cancelled, none)) := by
  decide

/-- Instantiation of the state-machine theorem: the restaurant may accept a
pending order, and no transition leaves a delivered order. -/
theorem order_status_state_machine_witness :
    stepOrder OrderStatus.pending Role.restaurant OrderStatus.accepted
      = (OrderStatus.accepted, none) ∧
    stepOrder OrderStatus.delivered Role.restaurant OrderStatus.cancelled
      = (OrderStatus.delivered, some TransitionErr.invalidTransition) :=
  ⟨(order_status_state_machine OrderStatus.pending Role.restaurant
      OrderStatus.accepted).1 (by decide),
   (order_status_state_machine OrderStatus.delivered Role.restaurant
      OrderStatus.cancelled).2.2.2.1 (by decide)⟩

/-- C2: when a restaurant whose kitchen is open requests the toggle, a
positive count of its non-terminal pre-delivery orders makes the handler
return the ConflictError with exactly that count and leave the database (in
particular the open flag) unchanged; a zero count flips the flag to
closed. -/
theorem toggleKitchen_close_guard
    (db : DB) (caller user : UserDoc)
    (hrole : caller.role = "restaurant")
    (hfind : findUser db.users caller.id = some user)
    (hopen : (user.restaurantDetails.bind (fun d => d.isKitchenOpen)).getD true = true) :
    (0 < countActiveOrders db.orders user.id →
      toggleKitchen db caller = (.conflict (countActiveOrders db.orders user.id), db)) ∧
    (countActiveOrders db.orders user.id = 0 →
      toggleKitchen db caller =
        (.ok false, { db with users := saveUser db.users (setKitchenOpen user false) })) := by
  constructor
  · intro hpos
    simp [toggleKitchen, hrole, hfind, hopen, Nat.pos_iff_ne_zero.mp hpos, hpos]
  · intro hzero
    simp [toggleKitchen, hrole, hfind, hopen, hzero]

/-- Instantiation of the kitchen-close guard: a restaurant with two orders in
preparing is refused with activeOrders = 2, database unchanged. -/
theorem toggleKitchen_close_guard_witness :
    toggleKitchen sampleKitchenDb sampleKitchenUser = (.conflict 2, sampleKitchenDb) :=
  (toggleKitchen_close_guard sampleKitchenDb sampleKitchenUser sampleKitchenUser
    rfl rfl rfl).1 (by decide)

/-- C4: a rating submission on an existing order whose status is not
delivered is rejected with the 400 validation response and the database is
unchanged, so neither the order rating subdocuments nor any rating aggregate
is touched. -/
theorem rateOrder_requires_delivered
    (db : DB) (orderId : ℕ) (body : RatingBody) (now : ℕ) (order : OrderDoc)
    (hfind : findOrderDoc db.orders orderId = some order)
    (hst : order.status ≠ "delivered") :
    rateOrder db orderId body now = (.badRequest, db) := by
  simp [rateOrder, hfind, hst]

/-- Instantiation of the delivered guard: rating a pending order changes
nothing and yields the 400 response. -/
theorem rateOrder_requires_delivered_witness :
    rateOrder
      { users := [], orders := [mkOrder 1 1 none "pending"]
        menuItems := [], wishlists := [] } 1
      { restaurantRating := some 5, restaurantReview := none
        riderRating := some 4, riderReview := none } 0
      = (.badRequest,
        { users := [], orders := [mkOrder 1 1 none "pending"]
          menuItems := [], wishlists := [] }) :=
  rateOrder_requires_delivered _ 1 _ 0 (mkOrder 1 1 none "pending") rfl (by decide)

/-- C10: the serialized public profile produced by toJSON carries no
password, passwordResetToken or passwordResetExpires key, so two user
documents that differ only in those three fields serialize to the same
object. -/
theorem userToJSON_no_credentials
    (u : UserDoc) (p p2 t t2 : Option String) (e e2 : Option ℕ) :
    userToJSON { u with password := p, passwordResetToken := t
                        passwordResetExpires := e }
      = userToJSON { u with password := p2, passwordResetToken := t2
                            passwordResetExpires := e2 } := rfl

/-- C7: on an existing menu item, update and delete succeed exactly when the
caller is a restaurant account owning the item; otherwise the response is one
of the two 403 rejections and the database, in particular the stored menu
item, is unchanged. -/
theorem menu_mutation_owner_only
    (db : DB) (caller : UserDoc) (itemId : ℕ) (b : MenuItemBody) (m : MenuItemDoc)
    (hfind : findMenuItemDoc db.menuItems itemId = some m) :
    ((updateMenuItem db caller itemId b).1 = .ok ↔
      caller.role = "restaurant" ∧ m.restaurantId = caller.id) ∧
    ((deleteMenuItem db caller itemId).1 = .ok ↔
      caller.role = "restaurant" ∧ m.restaurantId = caller.id) ∧
    (¬(caller.role = "restaurant" ∧ m.restaurantId = caller.id) →
      ((updateMenuItem db caller itemId b).1 = .forbiddenRole ∨
       (updateMenuItem db caller itemId b).1 = .forbiddenOwner) ∧
      (updateMenuItem db caller itemId b).2 = db ∧
      ((deleteMenuItem db caller itemId).1 = .forbiddenRole ∨
       (deleteMenuItem db caller itemId).1 = .forbiddenOwner) ∧
      (deleteMenuItem db caller itemId).2 = db) := by
  by_cases hr : caller.role = "restaurant"
  · by_cases ho : m.restaurantId = caller.id
    · simp [updateMenuItem, deleteMenuItem, hfind, hr, ho]
    · simp [updateMenuItem, deleteMenuItem, hfind, hr, ho]
  · simp [updateMenuItem, deleteMenuItem, hfind, hr]

/-- Instantiation of the ownership guard: the owning restaurant account may
update and delete its menu item. -/
theorem menu_mutation_owner_only_witness :
    (updateMenuItem
      { users := [], orders := [], menuItems := [mkMenuItem 5 1], wishlists := [] }
      (mkUser 1 "restaurant" none none) 5
      { name := none, description := none, price := none, category := none
        cuisine := none, subCategory := none, image := none, isVeg := none
        isAvailable := none }).1 = .ok ∧
    (deleteMenuItem
      { users := [], orders := [], menuItems := [mkMenuItem 5 1], wishlists := [] }
      (mkUser 1 "restaurant" none none) 5).1 = .ok := by
  have h := menu_mutation_owner_only
    { users := [], orders := [], menuItems := [mkMenuItem 5 1], wishlists := [] }
    (mkUser 1 "restaurant" none none) 5
    { name := none, description := none, price := none, category := none
      cuisine := none, subCategory := none, image := none, isVeg := none
      isAvailable := none }
    (mkMenuItem 5 1) rfl
  exact ⟨h.1.mpr ⟨rfl, rfl⟩, h.2.1.mpr ⟨rfl, rfl⟩⟩

/-- `c || 0` is the identity on a natural count. -/
theorem jsOrN_zero (c : ℕ) : jsOrN c 0 = c := by
  by_cases h : c = 0 <;> simp [jsOrN, h]

/-- Under the data-model invariant (a fresh aggregate or a nonzero stored
average), the falsy-guarded average computed by the handler agrees with the
recurrence as the specification words it, for any falsy-fallback default. -/
theorem jsAgg_avg_eq (a : ℚ) (c : ℕ) (r d : ℚ) (h : c = 0 ∨ a ≠ 0) :
    jsRound10 ((jsOrQ a d * (c : ℚ) + r) / ((c : ℚ) + 1))
      = roundHalfUp1 ((a * c + r) / (c + 1)) := by
  rcases h with h | h
  · subst h; simp [jsOrQ, jsRound10, roundHalfUp1]
  · have ha : jsOrQ a d = a := by simp [jsOrQ, h]
    rw [ha]; rfl

/-- The restaurant branch of the rating handler stores exactly the
specification recurrence when the restaurant document and its details are
present and the stored aggregate respects the data-model invariant. -/
theorem rateRestaurantBranch_eq
    (db : DB) (order : OrderDoc) (body : RatingBody) (now : ℕ)
    (restaurant : UserDoc) (rdet : RestaurantDetails)
    (hrr : numTruthy body.restaurantRating = true)
    (hfr : findUser db.users order.restaurant = some restaurant)
    (hrd : restaurant.restaurantDetails = some rdet)
    (hinv : rdet.rating.count = 0 ∨ rdet.rating.average ≠ 0) :
    rateRestaurantBranch db order body now =
      .ok (withRestaurantRatingSub order
             ⟨body.restaurantRating.getD 0, body.restaurantReview.getD "", now⟩,
           { db with users := saveUser db.users (withRating restaurant rdet
             (specRatingUpdate rdet.rating (body.restaurantRating.getD 0))) }) := by
  have havg := jsAgg_avg_eq rdet.rating.average rdet.rating.count
    (body.restaurantRating.getD 0) 0 hinv
  have hcnt := jsOrN_zero rdet.rating.count
  simp [rateRestaurantBranch, hrr, hfr, hrd, withRestaurantRatingSub, withRating,
    specRatingUpdate, havg, hcnt]

/-- The rider branch of the rating handler stores exactly the specification
recurrence when the order carries a rider, the rider document and its details
are present, and the stored aggregate respects the data-model invariant. -/
theorem rateRiderBranch_eq
    (db : DB) (order : OrderDoc) (body : RatingBody) (now : ℕ)
    (riderU : UserDoc) (ddet : RiderDetails) (rid : ℕ)
    (hrr : numTruthy body.riderRating = true)
    (hrid : order.rider = some rid)
    (hfr : findUser db.users rid = some riderU)
    (hdd : riderU.riderDetails = some ddet)
    (hinv : ddet.rating.count = 0 ∨ ddet.rating.average ≠ 0) :
    rateRiderBranch db order body now =
      .ok (withRiderRatingSub order
             ⟨body.riderRating.getD 0, body.riderReview.getD "", now⟩,
           { db with users := saveUser db.users (withRiderRating riderU ddet
             (specRatingUpdate ddet.rating (body.riderRating.getD 0))) }) := by
  have havg := jsAgg_avg_eq ddet.rating.average ddet.rating.count
    (body.riderRating.getD 0) (5/2) hinv
  have hcnt := jsOrN_zero ddet.rating.count
  simp [rateRiderBranch, hrr, hrid, hfr, hdd, withRiderRatingSub, withRiderRating,
    specRatingUpdate, havg, hcnt]

/-- Saving a document whose id differs from the looked-up id does not change
the lookup result. -/
theorem findUser_saveUser_of_ne (users : List UserDoc) (u : UserDoc) (i : ℕ)
    (h : u.id ≠ i) : findUser (saveUser users u) i = findUser users i := by
  induction users with
  | nil => rfl
  | cons v vs ih =>
    by_cases hv : v.id = u.id
    · simp [saveUser, findUser, List.find?_cons, hv, h] at *
      simp [ih]
    · simp [saveUser, findUser, List.find?_cons, hv] at *
      by_cases hvi : v.id = i <;> simp [hvi, ih]

/-- C3: a rating submission on a delivered order updates, for each of the
restaurant and the rider that received a rating, the stored aggregate to
newCount = oldCount + 1 and newAvg = round half-up to one decimal of
(oldAvg*oldCount + newRating)/(oldCount+1); the hypotheses state that the
referenced documents exist and that the stored aggregates respect the
data-model invariant (count 0 or nonzero average). -/
theorem rateOrder_aggregate_update
    (db : DB) (orderId : ℕ) (body : RatingBody) (now : ℕ)
    (order : OrderDoc) (restaurant riderU : UserDoc)
    (rdet : RestaurantDetails) (ddet : RiderDetails) (rid : ℕ)
    (hfo : findOrderDoc db.orders orderId = some order)
    (hst : order.status = "delivered")
    (hrr : numTruthy body.restaurantRating = true)
    (hfr : findUser db.users order.restaurant = some restaurant)
    (hrd : restaurant.restaurantDetails = some rdet)
    (hinv1 : rdet.rating.count = 0 ∨ rdet.rating.average ≠ 0)
    (hrr2 : numTruthy body.riderRating = true)
    (hrid : order.rider = some rid)
    (hfr2 : findUser db.users rid = some riderU)
    (hne : restaurant.id ≠ rid)
    (hdd : riderU.riderDetails = some ddet)
    (hinv2 : ddet.rating.count = 0 ∨ ddet.rating.average ≠ 0) :
    rateOrder db orderId body now =
      (.ok, { db with
        users := saveUser (saveUser db.users (withRating restaurant rdet
            (specRatingUpdate rdet.rating (body.restaurantRating.getD 0))))
          (withRiderRating riderU ddet
            (specRatingUpdate ddet.rating (body.riderRating.getD 0)))
        orders := saveOrder db.orders (withRiderRatingSub
          (withRestaurantRatingSub order
            ⟨body.restaurantRating.getD 0, body.restaurantReview.getD "", now⟩)
          ⟨body.riderRating.getD 0, body.riderReview.getD "", now⟩) }) := by
  have hbr := rateRestaurantBranch_eq db order body now restaurant rdet
    hrr hfr hrd hinv1
  have hfu : findUser (saveUser db.users (withRating restaurant rdet
      (specRatingUpdate rdet.rating (body.restaurantRating.getD 0)))) rid
      = some riderU := by
    have hrw := findUser_saveUser_of_ne db.users (withRating restaurant rdet
      (specRatingUpdate rdet.rating (body.restaurantRating.getD 0))) rid hne
    rw [hrw]
    exact hfr2
  have hbr2 := rateRiderBranch_eq
    { db with users := saveUser db.users (withRating restaurant rdet
        (specRatingUpdate rdet.rating (body.restaurantRating.getD 0))) }
    (withRestaurantRatingSub order
      ⟨body.restaurantRating.getD 0, body.restaurantReview.getD "", now⟩)
    body now riderU ddet rid hrr2 hrid hfu hdd hinv2
  simp [rateOrder, hfo, hst, hbr, hbr2]

/-- Instantiation of the aggregate update: oldAvg 4.0, oldCount 3, rating 5
stores average 4.3 and count 4 on the restaurant; the rider with the default
aggregate and rating 4 stores average 4.0 and count 1. -/
theorem rateOrder_aggregate_update_witness :
    rateOrder sampleRatingDb 7 sampleRatingBody 11 =
      (.ok,
       { users := [withRating sampleRatedRestaurant
            (openKitchen { average := 4, count := 3 }) { average := 43/10, count := 4 },
          withRiderRating sampleRatedRider
            (riderDetailsOf { average := 5/2, count := 0 }) { average := 4, count := 1 }]
         orders := [withRiderRatingSub
           (withRestaurantRatingSub sampleDeliveredOrder ⟨5, "", 11⟩) ⟨4, "", 11⟩]
         menuItems := [], wishlists := [] }) := by
  have h := rateOrder_aggregate_update sampleRatingDb 7 sampleRatingBody 11
    sampleDeliveredOrder sampleRatedRestaurant sampleRatedRider
    (openKitchen { average := 4, count := 3 })
    (riderDetailsOf { average := 5/2, count := 0 }) 4
    rfl rfl rfl rfl rfl (by decide) rfl rfl rfl (by decide) rfl (by decide)
  rw [h]
  norm_num [sampleRatingDb, sampleRatedRestaurant, sampleRatedRider,
    sampleDeliveredOrder, sampleRatingBody, withRating, withRiderRating,
    withRestaurantRatingSub, withRiderRatingSub, openKitchen, riderDetailsOf,
    mkUser, mkOrder, specRatingUpdate, roundHalfUp1, saveUser, saveOrder]

/-- C6 (code bug): adding a menu item that exists and belongs to the
wishlist's own restaurant does not add it; the guard of wishlist.js line 162
reads the nonexistent `restaurant` property of the menu item document (the
schema field is `restaurantId`), the `toString()` call throws, and the
handler answers 500 with the wishlist unchanged.  The second conjunct records
that the item does belong to the wishlist's restaurant, so the claim expects
the add to succeed. -/
theorem addWishlistItem_restaurant_field_bug :
    addWishlistItem sampleWishDb 9 20
      { menuItem := 5, name := none, price := none, quantity := some 1 }
      = (.serverError, sampleWishDb) ∧
    (mkMenuItem 5 1).restaurantId = sampleWishlist.restaurant :=
  ⟨rfl, rfl⟩

/-- C8 counterexample: a request that carries no authenticated caller at all
is not rejected by the rider availability route; it flips the stored
availability flag of the rider named in the body and reports success. -/
theorem rider_patch_no_middleware_counterexample :
    availabilityRoute sampleRiderDb none 2 true
      = (.ok true, { sampleRiderDb with users := [{ sampleRiderUser with riderDetails := some { emptyRiderDetails with isAvailable := some true } }] }) ∧
    (availabilityRoute sampleRiderDb none 2 true).2 ≠ sampleRiderDb := by
  refine ⟨rfl, ?_⟩
  intro h
  have := congrArg DB.users h
  simp [sampleRiderDb, sampleRiderUser, mkUser, availabilityRoute,
    patchAvailability, findUser, saveUser, emptyRiderDetails] at this

/-- C8 amended: the availability and location patch routes mount no
authentication middleware, so their outcome is independent of the caller;
a request naming an existing user with role rider succeeds and updates that
rider, a request naming a missing user gets the 404 response, and a request
naming a non-rider user gets the 404 response.  There is no 403 rejection. -/
theorem rider_patch_routes_unauthenticated
    (db : DB) (c1 c2 : Option UserDoc) (riderId : ℕ) (b : Bool)
    (lat lon : ℝ) (now : ℕ) :
    availabilityRoute db c1 riderId b = availabilityRoute db c2 riderId b ∧
    locationRoute db c1 riderId lat lon now
      = locationRoute db c2 riderId lat lon now ∧
    (∀ rider, findUser db.users riderId = some rider → rider.role = "rider" →
      (patchAvailability db riderId b).1 = .ok b ∧
      (patchRiderLoc db riderId lat lon now).1 = .ok lat lon) ∧
    (findUser db.users riderId = none →
      patchAvailability db riderId b = (.notFoundRider, db) ∧
      patchRiderLoc db riderId lat lon now = (.notFoundRider, db)) ∧
    (∀ rider, findUser db.users riderId = some rider → rider.role ≠ "rider" →
      patchAvailability db riderId b = (.notFoundRider, db) ∧
      patchRiderLoc db riderId lat lon now = (.notFoundRider, db)) := by
  refine ⟨rfl, rfl, ?_, ?_, ?_⟩
  · intro rider hf hr
    constructor <;> simp [patchAvailability, patchRiderLoc, hf, hr]
  · intro hf
    constructor <;> simp [patchAvailability, patchRiderLoc, hf]
  · intro rider hf hr
    constructor <;> simp [patchAvailability, patchRiderLoc, hf, hr]

/-- Instantiation of the amended rider-route description: an unauthenticated
request updates the sample rider and reports success on both routes. -/
theorem rider_patch_routes_unauthenticated_witness :
    (patchAvailability sampleRiderDb 2 true).1 = .ok true ∧
    (patchRiderLoc sampleRiderDb 2 10 20 5).1 = .ok 10 20 :=
  (rider_patch_routes_unauthenticated sampleRiderDb none (some sampleRiderUser)
    2 true 10 20 5).2.2.1 sampleRiderUser rfl rfl

/-- C9: every restaurant entry returned by the public listing has a nonempty
menuItems array, and that array is exactly the restaurant's own menu items
with isAvailable true; a restaurant with no available item never appears,
whatever the distance query. -/
theorem getAll_lists_only_available_items
    (users : List UserDoc) (menu : List MenuItemDoc)
    (latitude longitude : Option ℝ) (maxDistance : ℝ) (e : RestaurantEntry)
    (he : e ∈ getAllRestaurants users menu latitude longitude maxDistance) :
    e.menuItems ≠ [] ∧
    e.menuItems = menu.filter (fun m => m.restaurantId == e.id && m.isAvailable) := by
  have hbase : e ∈ restaurantsWithMenu users menu := by
    rcases latitude with _ | lat <;> rcases longitude with _ | lon <;>
      simp only [getAllRestaurants, filterByDistance] at he
    · exact he
    · exact he
    · exact he
    · exact (List.mem_filter.mp he).1
  obtain ⟨hmem, hcount⟩ := List.mem_filter.mp hbase
  obtain ⟨u, hu, hue⟩ := List.mem_map.mp hmem
  subst hue
  refine ⟨?_, rfl⟩
  have hlen : 0 < (buildRestaurantEntry menu u).menuItems.length := by
    simpa [buildRestaurantEntry] using hcount
  exact List.ne_nil_of_length_pos hlen

/-- Instantiation of the listing property: a query without coordinates lists
the sample restaurant with exactly its available menu item. -/
theorem getAll_lists_only_available_items_witness :
    (buildRestaurantEntry [mkMenuItem 5 1] sampleListedRestaurant).menuItems ≠ [] ∧
    (buildRestaurantEntry [mkMenuItem 5 1] sampleListedRestaurant).menuItems
      = [mkMenuItem 5 1].filter (fun m =>
          m.restaurantId == (buildRestaurantEntry [mkMenuItem 5 1] sampleListedRestaurant).id
            && m.isAvailable) :=
  getAll_lists_only_available_items [sampleListedRestaurant] [mkMenuItem 5 1]
    none none 25 (buildRestaurantEntry [mkMenuItem 5 1] sampleListedRestaurant)
    (List.Mem.head _)

/-- The Haversine helper evaluated at the specification's test point: a query
at latitude 0, longitude 0.001 degrees against a restaurant at (0, 0) is
6371 * 2 * pi/360000 km (about 0.111 km). -/
theorem calculateDistance_zero_equator :
    calculateDistance 0 0.001 0 0 = 6371 * (2 * (Real.pi / 360000)) := by
  have hθpos : (0:ℝ) < Real.pi / 360000 := by positivity
  have hθlt : Real.pi / 360000 < Real.pi / 2 := by linarith [Real.pi_pos]
  have hθle : Real.pi / 360000 ≤ Real.pi := by linarith [Real.pi_pos]
  have hsin : 0 ≤ Real.sin (Real.pi / 360000) :=
    Real.sin_nonneg_of_nonneg_of_le_pi hθpos.le hθle
  have hcos : 0 < Real.cos (Real.pi / 360000) :=
    Real.cos_pos_of_mem_Ioo ⟨by linarith [Real.pi_pos], hθlt⟩
  have e0 : ((0:ℝ) - 0) * Real.pi / 180 / 2 = 0 := by ring
  have e2 : ((0:ℝ) - 0.001) * Real.pi / 180 / 2 = -(Real.pi / 360000) := by ring
  have e3 : (0:ℝ) * Real.pi / 180 = 0 := by ring
  show 6371 * (2 * atan2
      (Real.sqrt (Real.sin (((0:ℝ) - 0) * Real.pi / 180 / 2) *
          Real.sin (((0:ℝ) - 0) * Real.pi / 180 / 2) +
        Real.cos ((0:ℝ) * Real.pi / 180) * Real.cos ((0:ℝ) * Real.pi / 180) *
          Real.sin (((0:ℝ) - 0.001) * Real.pi / 180 / 2) *
          Real.sin (((0:ℝ) - 0.001) * Real.pi / 180 / 2)))
      (Real.sqrt (1 - (Real.sin (((0:ℝ) - 0) * Real.pi / 180 / 2) *
          Real.sin (((0:ℝ) - 0) * Real.pi / 180 / 2) +
        Real.cos ((0:ℝ) * Real.pi / 180) * Real.cos ((0:ℝ) * Real.pi / 180) *
          Real.sin (((0:ℝ) - 0.001) * Real.pi / 180 / 2) *
          Real.sin (((0:ℝ) - 0.001) * Real.pi / 180 / 2)))))
    = 6371 * (2 * (Real.pi / 360000))
  rw [e0, e2, e3, Real.sin_zero, Real.cos_zero, Real.sin_neg]
  have hA : (0:ℝ) * 0 + 1 * 1 * -Real.sin (Real.pi / 360000) *
      -Real.sin (Real.pi / 360000)
      = Real.sin (Real.pi / 360000) * Real.sin (Real.pi / 360000) := by ring
  rw [hA, Real.sqrt_mul_self hsin]
  have h1A : 1 - Real.sin (Real.pi / 360000) * Real.sin (Real.pi / 360000)
      = Real.cos (Real.pi / 360000) * Real.cos (Real.pi / 360000) := by
    have h := Real.sin_sq_add_cos_sq (Real.pi / 360000)
    nlinarith [h]
  rw [h1A, Real.sqrt_mul_self hcos.le]
  have hat : atan2 (Real.sin (Real.pi / 360000)) (Real.cos (Real.pi / 360000))
      = Real.pi / 360000 := by
    simp only [atan2]
    rw [if_pos hcos, ← Real.tan_eq_sin_div_cos]
    exact Real.arctan_tan (by linarith [Real.pi_pos]) hθlt
  rw [hat]

/-- C5 (code bug): the public listing never returns a restaurant stored at
latitude 0, longitude 0, even though its Haversine distance to the query
point (0, 0.001 degrees) is far below the 25 km bound, because the filter of
restaurant.js line 344 treats the numeric coordinate 0 as missing
(JavaScript falsiness) and skips the restaurant. -/
theorem distance_filter_zero_coordinate_bug :
    getAllRestaurants [zeroCoordRestaurant] [mkMenuItem 5 1]
      (some 0) (some 0.001) 25 = [] ∧
    calculateDistance 0 0.001 0 0 ≤ 25 := by
  constructor
  · simp [getAllRestaurants, restaurantsWithMenu, buildRestaurantEntry,
      filterByDistance, keepByDistance, numFalsy, zeroCoordRestaurant,
      zeroCoordDetails, zeroCoordAddress, mkUser, mkMenuItem]
  · rw [calculateDistance_zero_equator]
    nlinarith [Real.pi_le_four, Real.pi_pos]
